import Mathlib

/-!
Verification of the real-time synchronization layer of the rust-server-panel
frontend: the polling engine (src/frontend/src/composables/usePolling.ts), the
reconnecting WebSocket channel manager (useWebSocket, src/unnamed/part_001) and
the map view transform (src/unnamed/part_012), shallowly embedded in Lean.
-/

namespace Polling

/-- The observable state of one usePolling instance: the refs data, loading
and error. data is Option T (ref starts null), error is Option String. -/
structure SyncState (T : Type) where
  data : Option T
  loading : Bool
  error : Option String
deriving DecidableEq

/-- Outcome of one invocation of fetchFn: success with a value, or a thrown
value. failure (some m) models a thrown err with err instanceof Error and
err.message = m; failure none models a thrown non-Error value. -/
inductive FetchOutcome (T : Type) where
  | success (v : T)
  | failure (err : Option String)
deriving DecidableEq

/-- The message stored by the catch branch of poll:
err instanceof Error gives err.message, anything else gives the literal
string used by the source. -/
def errorMessage (err : Option String) : String :=
  match err with
  | some m => m
  | none => "Polling error"

/-- First statement of poll: loading.value = true (inside try, before the
await of fetchFn). -/
def pollBegin {T : Type} (s : SyncState T) : SyncState T :=
  { s with loading := true }

/-- Effect of the try/catch body of poll once fetchFn has settled: on success
data is set and error cleared; on failure error is set from the caught value
and data is untouched. The catch covers every thrown value, so this is a
total function: no exception escapes poll. -/
def pollApply {T : Type} (o : FetchOutcome T) (s : SyncState T) : SyncState T :=
  match o with
  | .success v => { s with data := some v, error := none }
  | .failure err => { s with error := some (errorMessage err) }

/-- The finally block of poll: loading.value = false, on every path. -/
def pollFinish {T : Type} (s : SyncState T) : SyncState T :=
  { s with loading := false }

/-- One complete poll cycle with settled outcome o: begin, apply, finally. -/
def poll {T : Type} (o : FetchOutcome T) (s : SyncState T) : SyncState T :=
  pollFinish (pollApply o (pollBegin s))

/-- Scheduling state of one usePolling instance: the active flag, whether the
interval timer is armed (timer is non-null), and how many invocations of
fetchFn are currently outstanding (awaited but not yet settled). -/
structure EngineState where
  active : Bool
  timer : Bool
  inFlight : Nat
deriving DecidableEq

/-- Scheduling events: a start() call, a stop() call, an interval tick firing
while the timer is armed, and settlement of one outstanding fetch. -/
inductive EngineEvent where
  | start
  | stop
  | tick
  | complete
deriving DecidableEq

/-- One scheduling step, following the source: start() returns early when
active, otherwise sets active, immediately invokes poll (one new fetch goes
out) and arms setInterval(poll, intervalMs); a tick of that interval invokes
poll unconditionally, so one more fetch goes out whenever the timer is armed
(the body of poll contains no in-flight guard); stop() clears the flag and
the timer but does not touch outstanding fetches; a settlement retires one
outstanding fetch. -/
def engineStep (s : EngineState) : EngineEvent → EngineState
  | .start =>
      if s.active then s
      else { active := true, timer := true, inFlight := s.inFlight + 1 }
  | .stop => { s with active := false, timer := false }
  | .tick =>
      if s.timer then { s with inFlight := s.inFlight + 1 } else s
  | .complete => { s with inFlight := s.inFlight - 1 }

/-- The scheduling state a fresh usePolling instance starts in. -/
def initEngine : EngineState :=
  { active := false, timer := false, inFlight := 0 }

/-- Run a sequence of scheduling events from the initial state. -/
def runEngine (evts : List EngineEvent) : EngineState :=
  evts.foldl engineStep initEngine

end Polling

namespace WS

/-- One WebSocket object created by the manager: whether its readyState is
OPEN, whether close() has been called on it, and whether the onclose handler
assigned at construction is still attached (the source never detaches it). -/
structure Sock where
  isOpen : Bool
  closeRequested : Bool
  oncloseAttached : Bool
deriving DecidableEq

/-- State of one useWebSocket(serverId, channel) instance: the current ws
variable (none models ws === null), previous socket objects that were
overwritten or nulled out but still exist with their handlers, the URL the
latest WebSocket was constructed with, the refs connected / messages / error,
the payloads actually handed to ws.send, the pending reconnect timer as an
absolute fire time, the intentionalClose flag, the current clock, and how
many WebSocket constructions (connection attempts) have happened. -/
structure WSState where
  cur : Option Sock
  orphans : List Sock
  lastUrl : Option String
  connected : Bool
  messages : List String
  sent : List String
  error : Option String
  reconnectAt : Option Nat
  intentionalClose : Bool
  now : Nat
  attempts : Nat
deriving DecidableEq

/-- The URI built by connect: base covers the protocol and host part, then
/ws/serverId/channel, then ?token=t only when the stored token is truthy
(in JavaScript the empty string is falsy, so it is not appended). -/
def wsUrl (base serverId channel : String) (token : Option String) : String :=
  base ++ "/ws/" ++ serverId ++ "/" ++ channel ++
    (match token with
     | some t => if t = "" then "" else "?token=" ++ t
     | none => "")

/-- The guard ws && ws.readyState === WebSocket.OPEN used by connect and
send. -/
def curOpen (s : WSState) : Bool :=
  match s.cur with
  | some sock => sock.isOpen
  | none => false

/-- connect(): returns early when the current ws is OPEN; otherwise reads the
token and constructs a new WebSocket on the built URL, overwriting the ws
variable. The source does not close or detach the previous socket object (it
keeps its handlers and is never close()d by this path) and does not touch the
reconnect timer or the intentionalClose flag. -/
def connect (serverId channel : String) (token : Option String) (base : String)
    (s : WSState) : WSState :=
  if curOpen s then s
  else
    { s with
      cur := some { isOpen := false, closeRequested := false, oncloseAttached := true }
      orphans :=
        match s.cur with
        | some old => old :: s.orphans
        | none => s.orphans
      lastUrl := some (wsUrl base serverId channel token)
      attempts := s.attempts + 1 }

/-- The onopen handler of the current socket: connected = true, error
cleared; the socket readyState becomes OPEN. -/
def onOpen (s : WSState) : WSState :=
  match s.cur with
  | some sock =>
      { s with cur := some { sock with isOpen := true }, connected := true, error := none }
  | none => s

/-- The onmessage handler: the payload is pushed onto messages. -/
def onMessage (m : String) (s : WSState) : WSState :=
  { s with messages := s.messages ++ [m] }

/-- The onerror handler: error is set to the generic notice. -/
def onError (s : WSState) : WSState :=
  { s with error := some "WebSocket error" }

/-- The onclose handler of the current socket: connected = false, and if the
intentionalClose flag is not set a reconnect timer is armed with
setTimeout(connect, 3000). -/
def onClose (s : WSState) : WSState :=
  match s.cur with
  | some sock =>
      let s1 := { s with cur := some { sock with isOpen := false }, connected := false }
      if s.intentionalClose then s1
      else { s1 with reconnectAt := some (s.now + 3000) }
  | none => s

/-- send(message): the payload reaches ws.send only when the current socket
is OPEN; otherwise the call does nothing at all. -/
def send (m : String) (s : WSState) : WSState :=
  if curOpen s then { s with sent := s.sent ++ [m] } else s

/-- disconnect(): sets intentionalClose, clears any pending reconnect timer,
calls close() on the current socket and nulls the ws variable (the object
survives with its onclose still attached), and sets connected = false. -/
def disconnect (s : WSState) : WSState :=
  let s1 := { s with intentionalClose := true, reconnectAt := none }
  match s1.cur with
  | some sock =>
      { s1 with
        cur := none
        orphans := { sock with closeRequested := true } :: s1.orphans
        connected := false }
  | none => { s1 with connected := false }

/-- clearMessages(): messages is reset to the empty list. -/
def clearMessages (s : WSState) : WSState :=
  { s with messages := [] }

/-- Let wall-clock time pass without any callback firing. -/
def elapse (d : Nat) (s : WSState) : WSState :=
  { s with now := s.now + d }

/-- The reconnect timer firing: only possible when a timer is armed and its
fire time has been reached; the timer is consumed and connect is invoked with
the same serverId and channel the instance was created with. Before the fire
time nothing happens. -/
def fireReconnect (serverId channel : String) (token : Option String) (base : String)
    (s : WSState) : WSState :=
  match s.reconnectAt with
  | some t =>
      if t ≤ s.now then connect serverId channel token base { s with reconnectAt := none }
      else s
  | none => s

/-- Events that can act on one useWebSocket instance: the exported calls
(connect, send, disconnect, clearMessages), the socket callbacks, the passage
of time and the reconnect timer firing. -/
inductive WSEvent where
  | connectCall
  | openFire
  | messageFire (m : String)
  | errorFire
  | closeFire
  | sendCall (m : String)
  | disconnectCall
  | clearMessagesCall
  | elapseBy (d : Nat)
  | timerFire
deriving DecidableEq

/-- Interpretation of one event on the state. -/
def step (serverId channel : String) (token : Option String) (base : String)
    (s : WSState) : WSEvent → WSState
  | .connectCall => connect serverId channel token base s
  | .openFire => onOpen s
  | .messageFire m => onMessage m s
  | .errorFire => onError s
  | .closeFire => onClose s
  | .sendCall m => send m s
  | .disconnectCall => disconnect s
  | .clearMessagesCall => clearMessages s
  | .elapseBy d => elapse d s
  | .timerFire => fireReconnect serverId channel token base s

/-- True for every event except an explicit connect() call by the caller:
these are the events the instance can undergo without the user asking for a
new connection. -/
def noConnectCall : WSEvent → Bool
  | .connectCall => false
  | _ => true

/-- The state a fresh useWebSocket instance starts in. -/
def initState : WSState :=
  { cur := none, orphans := [], lastUrl := none, connected := false,
    messages := [], sent := [], error := none, reconnectAt := none,
    intentionalClose := false, now := 0, attempts := 0 }

/-- Run a list of events in order. -/
def run (serverId channel : String) (token : Option String) (base : String)
    (evts : List WSEvent) (s : WSState) : WSState :=
  evts.foldl (step serverId channel token base) s

end WS

namespace MapPage

/-- The pan and zoom state of the map page: the refs zoom, panX and panY.
Numbers are modelled as rationals. -/
structure View where
  zoom : ℚ
  panX : ℚ
  panY : ℚ
deriving DecidableEq

/-- fitToCanvas with the container and image sizes as inputs: zoom is the
smaller of the two axis ratios times 0.95, and the pans center the scaled
image in the container. No clamping is applied here. -/
def fitToCanvas (containerWidth containerHeight imgW imgH : ℚ) : View :=
  let scaleX := containerWidth / imgW
  let scaleY := containerHeight / imgH
  let zoom := min scaleX scaleY * (95 / 100)
  { zoom := zoom
    panX := (containerWidth - imgW * zoom) / 2
    panY := (containerHeight - imgH * zoom) / 2 }

/-- The world-to-image X conversion in render, with half = worldSize / 2
inlined. -/
def worldToImageX (worldSize imgW x : ℚ) : ℚ :=
  ((x + worldSize / 2) / worldSize) * imgW

/-- The world-to-image Y conversion in render: the world Z axis points up
while image Y grows downward, hence worldSize / 2 - z. -/
def worldToImageY (worldSize imgH z : ℚ) : ℚ :=
  ((worldSize / 2 - z) / worldSize) * imgH

/-- The factor handleWheel derives from the wheel direction: 0.9 for
deltaY > 0, otherwise 1.1. -/
def wheelFactor (deltaY : ℚ) : ℚ :=
  if 0 < deltaY then 9 / 10 else 11 / 10

/-- The zoom-towards-cursor update of handleWheel, with the wheel factor
abstracted as a parameter: the new zoom is the old one times the factor
clamped into [0.1, 10], and each pan is moved so the image point under the
mouse stays under the mouse, using the clamped new zoom. -/
def applyWheelZoom (v : View) (mouseX mouseY factor : ℚ) : View :=
  let oldZoom := v.zoom
  let newZoom := max (1 / 10) (min 10 (v.zoom * factor))
  { zoom := newZoom
    panX := mouseX - (mouseX - v.panX) * (newZoom / oldZoom)
    panY := mouseY - (mouseY - v.panY) * (newZoom / oldZoom) }

/-- handleWheel for a wheel event at canvas-relative position
(mouseX, mouseY) with vertical delta deltaY. -/
def handleWheel (v : View) (mouseX mouseY deltaY : ℚ) : View :=
  applyWheelZoom v mouseX mouseY (wheelFactor deltaY)

/-- The zoom-in button: zoom times 1.2, capped at 10; pans untouched. -/
def zoomIn (v : View) : View :=
  { v with zoom := min 10 (v.zoom * (12 / 10)) }

/-- The zoom-out button: zoom divided by 1.2, floored at 0.1; pans
untouched. -/
def zoomOut (v : View) : View :=
  { v with zoom := max (1 / 10) (v.zoom / (12 / 10)) }

/-- Rendering applies translate(panX, panY) then scale(zoom, zoom), so a
point drawn at image coordinate q lands on the canvas at pan + zoom * q; the
inverse mapping from a canvas point back to image coordinates on the X
axis. -/
def surfaceToImageX (v : View) (sx : ℚ) : ℚ :=
  (sx - v.panX) / v.zoom

/-- Inverse view mapping from a canvas point back to image coordinates on
the Y axis. -/
def surfaceToImageY (v : View) (sy : ℚ) : ℚ :=
  (sy - v.panY) / v.zoom

/-- Modelled from the spec: the fit scale the specification prescribes for
fitToSurface, min(surfaceW / imageW, surfaceH / imageH) * 0.95, written from
the words of the spec for comparison with fitToCanvas. -/
def fitScaleSpec (surfaceW surfaceH imageW imageH : ℚ) : ℚ :=
  min (surfaceW / imageW) (surfaceH / imageH) * (95 / 100)

end MapPage

/-- C1 counterexample: the claim says that a tick firing while a fetch is
still outstanding initiates no new fetch. In the source, start() invokes
poll (one fetch goes out) and arms the interval; the interval tick invokes
poll unconditionally, and poll has no in-flight guard. After the event
sequence start, tick (the first fetch not yet settled), two fetches are in
flight, so the single-flight bound of one is violated. -/
theorem c1_counterexample :
    (Polling.runEngine [.start, .tick]).inFlight = 2 ∧
    1 < (Polling.runEngine [.start, .tick]).inFlight := by
  constructor <;> decide

/-- C1 (amended): the interval tick is never skipped. Whenever the interval
timer is armed and at least one fetch is outstanding, the tick initiates one
more fetch, so at least two fetches are then in flight; the single-flight
discipline the spec describes is not implemented. -/
theorem c1_amended_tick_not_skipped (s : Polling.EngineState)
    (htimer : s.timer = true) (hout : 0 < s.inFlight) :
    (Polling.engineStep s .tick).inFlight = s.inFlight + 1 ∧
    2 ≤ (Polling.engineStep s .tick).inFlight := by
  constructor
  · simp [Polling.engineStep, htimer]
  · simp [Polling.engineStep, htimer]
    omega

/-- C1 amended witness: the amended theorem instantiated at the state
reached right after start(), where one fetch is outstanding. -/
theorem c1_amended_tick_not_skipped_witness :
    (Polling.engineStep { active := true, timer := true, inFlight := 1 } .tick).inFlight
      = 1 + 1 ∧
    2 ≤ (Polling.engineStep { active := true, timer := true, inFlight := 1 } .tick).inFlight :=
  c1_amended_tick_not_skipped { active := true, timer := true, inFlight := 1 } rfl
    (by decide)

/-- C3: each poll cycle sets loading at cycle start and clears it at cycle
end on every path; a successful fetch stores the value and clears error; a
failed fetch stores a message (err.message for an Error, a fixed string for
anything else) and leaves data unchanged. pollApply being a total function
over all outcomes models that the catch swallows every thrown value: no
exception crosses the poll boundary. -/
theorem c3_poll_cycle_contract (T : Type) (s : Polling.SyncState T) (v : T)
    (err : Option String) (o : Polling.FetchOutcome T) :
    (Polling.pollBegin s).loading = true ∧
    (Polling.poll o s).loading = false ∧
    (Polling.poll (.success v) s).data = some v ∧
    (Polling.poll (.success v) s).error = none ∧
    (Polling.poll (.failure err) s).data = s.data ∧
    (Polling.poll (.failure err) s).error = some (Polling.errorMessage err) := by
  refine ⟨rfl, ?_, rfl, rfl, rfl, rfl⟩
  cases o <;> rfl

/-- Helper: once the intentionalClose flag is set and no reconnect timer is
pending, any single event other than an explicit connect() call keeps the
flag set, keeps the timer absent, and starts no connection attempt. -/
theorem WS.step_noConnect_preserves (serverId channel : String) (token : Option String)
    (base : String) (s : WS.WSState) (ev : WS.WSEvent)
    (hev : WS.noConnectCall ev = true)
    (h1 : s.intentionalClose = true) (h2 : s.reconnectAt = none) :
    (WS.step serverId channel token base s ev).attempts = s.attempts ∧
    (WS.step serverId channel token base s ev).intentionalClose = true ∧
    (WS.step serverId channel token base s ev).reconnectAt = none := by
  cases ev with
  | connectCall => simp [WS.noConnectCall] at hev
  | openFire =>
      cases hcur : s.cur <;> simp [WS.step, WS.onOpen, hcur, h1, h2]
  | messageFire m => simp [WS.step, WS.onMessage, h1, h2]
  | errorFire => simp [WS.step, WS.onError, h1, h2]
  | closeFire =>
      cases hcur : s.cur <;> simp [WS.step, WS.onClose, hcur, h1, h2]
  | sendCall m =>
      cases hco : WS.curOpen s <;> simp [WS.step, WS.send, hco, h1, h2]
  | disconnectCall =>
      cases hcur : s.cur <;> simp [WS.step, WS.disconnect, hcur]
  | clearMessagesCall => simp [WS.step, WS.clearMessages, h1, h2]
  | elapseBy d => simp [WS.step, WS.elapse, h1, h2]
  | timerFire => simp [WS.step, WS.fireReconnect, h2, h1]

/-- Helper: after disconnect() has run (flag set, timer cleared), no sequence
of events that does not contain an explicit connect() call can ever start a
connection attempt, and the flag stays set with no timer pending. -/
theorem WS.run_noConnect_frozen (serverId channel : String) (token : Option String)
    (base : String) (evts : List WS.WSEvent) :
    ∀ s : WS.WSState, evts.all WS.noConnectCall = true →
      s.intentionalClose = true → s.reconnectAt = none →
      (WS.run serverId channel token base evts s).attempts = s.attempts ∧
      (WS.run serverId channel token base evts s).intentionalClose = true ∧
      (WS.run serverId channel token base evts s).reconnectAt = none := by
  induction evts with
  | nil => intro s _ h1 h2; exact ⟨rfl, h1, h2⟩
  | cons ev rest ih =>
      intro s hall h1 h2
      rw [List.all_cons, Bool.and_eq_true] at hall
      have hs := WS.step_noConnect_preserves serverId channel token base s ev hall.1 h1 h2
      have hr := ih (WS.step serverId channel token base s ev) hall.2 hs.2.1 hs.2.2
      exact ⟨hr.1.trans hs.1, hr.2.1, hr.2.2⟩

/-- C2 counterexample: the claim says every closure not caused by an explicit
disconnect() call arms a reconnect timer. But the intentionalClose flag, once
set by disconnect(), is never cleared. In the trace connect, open,
disconnect, connect, open, close the final close is an unexpected closure of
the second connection, not caused by any disconnect() of that connection, yet
no reconnect timer is armed and the instance stays dead. -/
theorem c2_counterexample :
    (WS.run "s1" "console" none "ws://host"
      [.connectCall, .openFire, .disconnectCall, .connectCall, .openFire, .closeFire]
      WS.initState).connected = false ∧
    (WS.run "s1" "console" none "ws://host"
      [.connectCall, .openFire, .disconnectCall, .connectCall, .openFire, .closeFire]
      WS.initState).intentionalClose = true ∧
    (WS.run "s1" "console" none "ws://host"
      [.connectCall, .openFire, .disconnectCall, .connectCall, .openFire, .closeFire]
      WS.initState).reconnectAt = none := by
  refine ⟨rfl, rfl, rfl⟩

/-- C2 (amended): on a state whose intentionalClose flag is still unset, a
closure of the current connection arms the 3000 ms reconnect timer; an armed
timer does nothing before its fire time; at or after the fire time it starts
exactly one new connection attempt toward the same (serverId, channel) URI;
and once disconnect() has run (flag set, timer cleared) no sequence of
events free of explicit connect() calls ever starts another attempt. The
proviso on the flag is necessary: disconnect() sets it forever, so the
arming guarantee does not hold for connections created after a
disconnect(). -/
theorem c2_amended_reconnect_discipline
    (serverId channel base : String) (token : Option String)
    (s sBefore sDue s2 : WS.WSState) (sock sockDue : WS.Sock) (t tDue : Nat)
    (evts : List WS.WSEvent)
    (hcur : s.cur = some sock) (hflag : s.intentionalClose = false)
    (hb1 : sBefore.reconnectAt = some t) (hb2 : sBefore.now < t)
    (hd1 : sDue.reconnectAt = some tDue) (hd2 : tDue ≤ sDue.now)
    (hd3 : sDue.cur = some sockDue) (hd4 : sockDue.isOpen = false)
    (h2a : s2.intentionalClose = true) (h2b : s2.reconnectAt = none)
    (hall : evts.all WS.noConnectCall = true) :
    (WS.onClose s).reconnectAt = some (s.now + 3000) ∧
    WS.fireReconnect serverId channel token base sBefore = sBefore ∧
    (WS.fireReconnect serverId channel token base sDue).attempts = sDue.attempts + 1 ∧
    (WS.fireReconnect serverId channel token base sDue).lastUrl =
      some (WS.wsUrl base serverId channel token) ∧
    (WS.run serverId channel token base evts s2).attempts = s2.attempts ∧
    (WS.run serverId channel token base evts s2).reconnectAt = none := by
  have hfrozen := WS.run_noConnect_frozen serverId channel token base evts s2 hall h2a h2b
  have hnotyet : ¬ (t ≤ sBefore.now) := Nat.not_le.mpr hb2
  have hcoDue : WS.curOpen { sDue with reconnectAt := none } = false := by
    simp [WS.curOpen, hd3, hd4]
  refine ⟨?_, ?_, ?_, ?_, hfrozen.1, hfrozen.2.2⟩
  · simp [WS.onClose, hcur, hflag]
  · simp [WS.fireReconnect, hb1, hnotyet]
  · simp [WS.fireReconnect, hd1, hd2, WS.connect, hcoDue]
  · simp [WS.fireReconnect, hd1, hd2, WS.connect, hcoDue]

/-- C2 amended witness: the amended theorem at concrete states, one per
conjunct: an open connection with the flag unset whose closure arms the
timer for now + 3000; an armed timer at time 0 that may not fire before
3000; the same state at time 3000 where firing starts attempt number two
toward the same URI; and the post-disconnect state on which the autonomous
trace elapse, close, timer-fire starts nothing. -/
theorem c2_amended_reconnect_discipline_witness :
    (WS.onClose
      { cur := some { isOpen := true, closeRequested := false, oncloseAttached := true },
        orphans := [], lastUrl := none, connected := true, messages := [], sent := [],
        error := none, reconnectAt := none, intentionalClose := false, now := 7,
        attempts := 1 }).reconnectAt = some (7 + 3000) ∧
    WS.fireReconnect "s1" "console" none "ws://host"
      { cur := some { isOpen := false, closeRequested := false, oncloseAttached := true },
        orphans := [], lastUrl := none, connected := false, messages := [], sent := [],
        error := none, reconnectAt := some 3000, intentionalClose := false, now := 0,
        attempts := 1 } =
      { cur := some { isOpen := false, closeRequested := false, oncloseAttached := true },
        orphans := [], lastUrl := none, connected := false, messages := [], sent := [],
        error := none, reconnectAt := some 3000, intentionalClose := false, now := 0,
        attempts := 1 } ∧
    (WS.fireReconnect "s1" "console" none "ws://host"
      { cur := some { isOpen := false, closeRequested := false, oncloseAttached := true },
        orphans := [], lastUrl := none, connected := false, messages := [], sent := [],
        error := none, reconnectAt := some 3000, intentionalClose := false, now := 3000,
        attempts := 1 }).attempts = 1 + 1 ∧
    (WS.fireReconnect "s1" "console" none "ws://host"
      { cur := some { isOpen := false, closeRequested := false, oncloseAttached := true },
        orphans := [], lastUrl := none, connected := false, messages := [], sent := [],
        error := none, reconnectAt := some 3000, intentionalClose := false, now := 3000,
        attempts := 1 }).lastUrl = some (WS.wsUrl "ws://host" "s1" "console" none) ∧
    (WS.run "s1" "console" none "ws://host" [.elapseBy 5, .closeFire, .timerFire]
      { cur := none, orphans := [], lastUrl := none, connected := false, messages := [],
        sent := [], error := none, reconnectAt := none, intentionalClose := true,
        now := 0, attempts := 1 }).attempts =
      ({ cur := none, orphans := [], lastUrl := none, connected := false, messages := [],
         sent := [], error := none, reconnectAt := none, intentionalClose := true,
         now := 0, attempts := 1 } : WS.WSState).attempts ∧
    (WS.run "s1" "console" none "ws://host" [.elapseBy 5, .closeFire, .timerFire]
      { cur := none, orphans := [], lastUrl := none, connected := false, messages := [],
        sent := [], error := none, reconnectAt := none, intentionalClose := true,
        now := 0, attempts := 1 }).reconnectAt = none :=
  c2_amended_reconnect_discipline "s1" "console" "ws://host" none
    { cur := some { isOpen := true, closeRequested := false, oncloseAttached := true },
      orphans := [], lastUrl := none, connected := true, messages := [], sent := [],
      error := none, reconnectAt := none, intentionalClose := false, now := 7,
      attempts := 1 }
    { cur := some { isOpen := false, closeRequested := false, oncloseAttached := true },
      orphans := [], lastUrl := none, connected := false, messages := [], sent := [],
      error := none, reconnectAt := some 3000, intentionalClose := false, now := 0,
      attempts := 1 }
    { cur := some { isOpen := false, closeRequested := false, oncloseAttached := true },
      orphans := [], lastUrl := none, connected := false, messages := [], sent := [],
      error := none, reconnectAt := some 3000, intentionalClose := false, now := 3000,
      attempts := 1 }
    { cur := none, orphans := [], lastUrl := none, connected := false, messages := [],
      sent := [], error := none, reconnectAt := none, intentionalClose := true,
      now := 0, attempts := 1 }
    { isOpen := true, closeRequested := false, oncloseAttached := true }
    { isOpen := false, closeRequested := false, oncloseAttached := true }
    3000 3000 [.elapseBy 5, .closeFire, .timerFire]
    rfl rfl rfl (by decide) rfl (by decide) rfl rfl rfl rfl rfl

/-- C7 counterexample: the claim says connect() detaches the old closure
handler, closes the old instance and cancels any pending reconnect timer
before attempting anew. In the trace connect, open, close, connect the final
connect() runs with a reconnect timer pending (armed at the unexpected
close) and a previous socket object present. Afterward the timer is still
pending (some 3000), and the previous object sits in orphans with its
closure handler still attached (oncloseAttached = true) and close() never
called on it (closeRequested = false). -/
theorem c7_counterexample :
    (WS.run "s1" "console" none "ws://host"
      [.connectCall, .openFire, .closeFire, .connectCall] WS.initState).reconnectAt =
      some 3000 ∧
    (WS.run "s1" "console" none "ws://host"
      [.connectCall, .openFire, .closeFire, .connectCall] WS.initState).orphans =
      [{ isOpen := false, closeRequested := false, oncloseAttached := true }] ∧
    (WS.run "s1" "console" none "ws://host"
      [.connectCall, .openFire, .closeFire, .connectCall] WS.initState).attempts = 2 := by
  refine ⟨rfl, rfl, rfl⟩

/-- C7 (amended): connect() is a no-op when the current connection is in
Open state; otherwise it begins a new connection attempt with the credential
token appended to the URI (when present and non-empty, per the truthiness
check in the source). It does not detach or close a previous connection
instance, which keeps its closure handler, and it does not cancel a pending
reconnect timer or touch the intentional-close flag. -/
theorem c7_amended_connect_behavior (serverId channel base : String)
    (token : Option String) (sOpen s : WS.WSState) (sock : WS.Sock)
    (hopen : WS.curOpen sOpen = true)
    (hcur : s.cur = some sock) (hnot : sock.isOpen = false) :
    WS.connect serverId channel token base sOpen = sOpen ∧
    (WS.connect serverId channel token base s).attempts = s.attempts + 1 ∧
    (WS.connect serverId channel token base s).lastUrl =
      some (WS.wsUrl base serverId channel token) ∧
    (WS.connect serverId channel token base s).cur =
      some { isOpen := false, closeRequested := false, oncloseAttached := true } ∧
    (WS.connect serverId channel token base s).orphans = sock :: s.orphans ∧
    (WS.connect serverId channel token base s).reconnectAt = s.reconnectAt ∧
    (WS.connect serverId channel token base s).intentionalClose = s.intentionalClose := by
  have hco : WS.curOpen s = false := by simp [WS.curOpen, hcur, hnot]
  refine ⟨by simp [WS.connect, hopen], ?_, ?_, ?_, ?_, ?_, ?_⟩ <;>
    simp [WS.connect, hco, hcur]

/-- C7 amended witness: the amended theorem at a no-op state with an open
socket and at a state holding a closed previous socket with a pending timer
and the token present. -/
theorem c7_amended_connect_behavior_witness :
    WS.connect "s1" "console" (some "tok") "ws://host"
      { cur := some { isOpen := true, closeRequested := false, oncloseAttached := true },
        orphans := [], lastUrl := none, connected := true, messages := [], sent := [],
        error := none, reconnectAt := none, intentionalClose := false, now := 0,
        attempts := 1 } =
      { cur := some { isOpen := true, closeRequested := false, oncloseAttached := true },
        orphans := [], lastUrl := none, connected := true, messages := [], sent := [],
        error := none, reconnectAt := none, intentionalClose := false, now := 0,
        attempts := 1 } ∧
    (WS.connect "s1" "console" (some "tok") "ws://host"
      { cur := some { isOpen := false, closeRequested := false, oncloseAttached := true },
        orphans := [], lastUrl := none, connected := false, messages := [], sent := [],
        error := none, reconnectAt := some 3000, intentionalClose := false, now := 0,
        attempts := 1 }).attempts = 1 + 1 ∧
    (WS.connect "s1" "console" (some "tok") "ws://host"
      { cur := some { isOpen := false, closeRequested := false, oncloseAttached := true },
        orphans := [], lastUrl := none, connected := false, messages := [], sent := [],
        error := none, reconnectAt := some 3000, intentionalClose := false, now := 0,
        attempts := 1 }).lastUrl = some (WS.wsUrl "ws://host" "s1" "console" (some "tok")) ∧
    (WS.connect "s1" "console" (some "tok") "ws://host"
      { cur := some { isOpen := false, closeRequested := false, oncloseAttached := true },
        orphans := [], lastUrl := none, connected := false, messages := [], sent := [],
        error := none, reconnectAt := some 3000, intentionalClose := false, now := 0,
        attempts := 1 }).cur =
      some { isOpen := false, closeRequested := false, oncloseAttached := true } ∧
    (WS.connect "s1" "console" (some "tok") "ws://host"
      { cur := some { isOpen := false, closeRequested := false, oncloseAttached := true },
        orphans := [], lastUrl := none, connected := false, messages := [], sent := [],
        error := none, reconnectAt := some 3000, intentionalClose := false, now := 0,
        attempts := 1 }).orphans =
      { isOpen := false, closeRequested := false, oncloseAttached := true } :: [] ∧
    (WS.connect "s1" "console" (some "tok") "ws://host"
      { cur := some { isOpen := false, closeRequested := false, oncloseAttached := true },
        orphans := [], lastUrl := none, connected := false, messages := [], sent := [],
        error := none, reconnectAt := some 3000, intentionalClose := false, now := 0,
        attempts := 1 }).reconnectAt = some 3000 ∧
    (WS.connect "s1" "console" (some "tok") "ws://host"
      { cur := some { isOpen := false, closeRequested := false, oncloseAttached := true },
        orphans := [], lastUrl := none, connected := false, messages := [], sent := [],
        error := none, reconnectAt := some 3000, intentionalClose := false, now := 0,
        attempts := 1 }).intentionalClose = false :=
  c7_amended_connect_behavior "s1" "console" "ws://host" (some "tok")
    { cur := some { isOpen := true, closeRequested := false, oncloseAttached := true },
      orphans := [], lastUrl := none, connected := true, messages := [], sent := [],
      error := none, reconnectAt := none, intentionalClose := false, now := 0,
      attempts := 1 }
    { cur := some { isOpen := false, closeRequested := false, oncloseAttached := true },
      orphans := [], lastUrl := none, connected := false, messages := [], sent := [],
      error := none, reconnectAt := some 3000, intentionalClose := false, now := 0,
      attempts := 1 }
    { isOpen := false, closeRequested := false, oncloseAttached := true }
    rfl rfl rfl

/-- C8 counterexample: the claim says a send while not connected appends a
local "not connected" notice surfaced to the caller. In the trace connect,
send (the socket still Connecting, not Open) the payload is not delivered,
and nothing is appended anywhere: messages stays empty. The send path in the
source is an if with no else branch. -/
theorem c8_counterexample :
    (WS.run "s1" "console" none "ws://host" [.connectCall, .sendCall "status"]
      WS.initState).messages = [] ∧
    (WS.run "s1" "console" none "ws://host" [.connectCall, .sendCall "status"]
      WS.initState).sent = [] ∧
    (WS.run "s1" "console" none "ws://host" [.connectCall, .sendCall "status"]
      WS.initState).connected = false := by
  refine ⟨rfl, rfl, rfl⟩

/-- C8 (amended): send(payload) hands the payload to the socket exactly when
the current connection is in Open state; in any other state the call is a
silent no-op: the payload is not delivered and no notice of any kind is
recorded. -/
theorem c8_amended_send_gating (m : String) (sOpen sDown : WS.WSState)
    (hopen : WS.curOpen sOpen = true) (hdown : WS.curOpen sDown = false) :
    (WS.send m sOpen).sent = sOpen.sent ++ [m] ∧
    WS.send m sDown = sDown ∧
    (WS.send m sDown).messages = sDown.messages := by
  refine ⟨?_, ?_, ?_⟩ <;> simp [WS.send, hopen, hdown]

/-- C8 amended witness: the amended theorem at an open state and at the
fresh state, where no socket exists. -/
theorem c8_amended_send_gating_witness :
    (WS.send "status"
      { cur := some { isOpen := true, closeRequested := false, oncloseAttached := true },
        orphans := [], lastUrl := none, connected := true, messages := [], sent := [],
        error := none, reconnectAt := none, intentionalClose := false, now := 0,
        attempts := 1 }).sent =
      ({ cur := some { isOpen := true, closeRequested := false, oncloseAttached := true },
         orphans := [], lastUrl := none, connected := true, messages := [], sent := [],
         error := none, reconnectAt := none, intentionalClose := false, now := 0,
         attempts := 1 } : WS.WSState).sent ++ ["status"] ∧
    WS.send "status" WS.initState = WS.initState ∧
    (WS.send "status" WS.initState).messages = WS.initState.messages :=
  c8_amended_send_gating "status"
    { cur := some { isOpen := true, closeRequested := false, oncloseAttached := true },
      orphans := [], lastUrl := none, connected := true, messages := [], sent := [],
      error := none, reconnectAt := none, intentionalClose := false, now := 0,
      attempts := 1 }
    WS.initState rfl rfl

/-- C10: on any state in which no socket exists or the current socket is not
in Open state, send(message) is a no-op: modelled as a total function, it
returns normally, and the resulting state equals the input state, so
messages, connected, error, the pending reconnect timer and the
intentional-close flag are all untouched. -/
theorem c10_send_frame (m : String) (s : WS.WSState)
    (h : WS.curOpen s = false) :
    WS.send m s = s ∧
    (WS.send m s).messages = s.messages ∧
    (WS.send m s).connected = s.connected ∧
    (WS.send m s).error = s.error ∧
    (WS.send m s).reconnectAt = s.reconnectAt ∧
    (WS.send m s).intentionalClose = s.intentionalClose := by
  have heq : WS.send m s = s := by simp [WS.send, h]
  exact ⟨heq, by rw [heq], by rw [heq], by rw [heq], by rw [heq], by rw [heq]⟩

/-- C10 witness: the frame property of send at the fresh state, where no
socket exists. -/
theorem c10_send_frame_witness :
    WS.send "status" WS.initState = WS.initState ∧
    (WS.send "status" WS.initState).messages = WS.initState.messages ∧
    (WS.send "status" WS.initState).connected = WS.initState.connected ∧
    (WS.send "status" WS.initState).error = WS.initState.error ∧
    (WS.send "status" WS.initState).reconnectAt = WS.initState.reconnectAt ∧
    (WS.send "status" WS.initState).intentionalClose = WS.initState.intentionalClose :=
  c10_send_frame "status" WS.initState rfl

/-- C4: pointer-pivot zoom is pivot-invariant. For any view with positive
zoom, any pointer position and any wheel factor, mapping the pointer through
the inverse view transform (canvas point minus pan, divided by zoom) yields
the same image coordinates before and after the zoom update, including when
the new zoom is clamped at a bound of [0.1, 10], because the pan update uses
the clamped new zoom. The conjuncts about handleWheel specialize this to the
factors 0.9 and 1.1 the source derives from the wheel direction. -/
theorem c4_zoom_pivot_invariant (v : MapPage.View) (px py factor deltaY : ℚ)
    (hz : 0 < v.zoom) :
    MapPage.surfaceToImageX (MapPage.applyWheelZoom v px py factor) px =
      MapPage.surfaceToImageX v px ∧
    MapPage.surfaceToImageY (MapPage.applyWheelZoom v px py factor) py =
      MapPage.surfaceToImageY v py ∧
    MapPage.surfaceToImageX (MapPage.handleWheel v px py deltaY) px =
      MapPage.surfaceToImageX v px ∧
    MapPage.surfaceToImageY (MapPage.handleWheel v px py deltaY) py =
      MapPage.surfaceToImageY v py := by
  have key : ∀ f p q : ℚ,
      MapPage.surfaceToImageX (MapPage.applyWheelZoom v p q f) p =
        MapPage.surfaceToImageX v p ∧
      MapPage.surfaceToImageY (MapPage.applyWheelZoom v p q f) q =
        MapPage.surfaceToImageY v q := by
    intro f p q
    have hnz : (0 : ℚ) < max (1 / 10) (min 10 (v.zoom * f)) :=
      lt_of_lt_of_le (by norm_num) (le_max_left _ _)
    constructor <;>
      · simp only [MapPage.surfaceToImageX, MapPage.surfaceToImageY,
          MapPage.applyWheelZoom]
        field_simp
        ring
  exact ⟨(key factor px py).1, (key factor px py).2,
    (key (MapPage.wheelFactor deltaY) px py).1,
    (key (MapPage.wheelFactor deltaY) px py).2⟩

/-- C4 witness: pivot invariance at the view with zoom 1 and pans 3 and 4,
pointer (100, 50), factor 20 — large enough that the clamp at 10
engages — and an upward wheel event. -/
theorem c4_zoom_pivot_invariant_witness :
    MapPage.surfaceToImageX
      (MapPage.applyWheelZoom { zoom := 1, panX := 3, panY := 4 } 100 50 20) 100 =
      MapPage.surfaceToImageX { zoom := 1, panX := 3, panY := 4 } 100 ∧
    MapPage.surfaceToImageY
      (MapPage.applyWheelZoom { zoom := 1, panX := 3, panY := 4 } 100 50 20) 50 =
      MapPage.surfaceToImageY { zoom := 1, panX := 3, panY := 4 } 50 ∧
    MapPage.surfaceToImageX
      (MapPage.handleWheel { zoom := 1, panX := 3, panY := 4 } 100 50 (-1)) 100 =
      MapPage.surfaceToImageX { zoom := 1, panX := 3, panY := 4 } 100 ∧
    MapPage.surfaceToImageY
      (MapPage.handleWheel { zoom := 1, panX := 3, panY := 4 } 100 50 (-1)) 50 =
      MapPage.surfaceToImageY { zoom := 1, panX := 3, panY := 4 } 50 :=
  c4_zoom_pivot_invariant { zoom := 1, panX := 3, panY := 4 } 100 50 20 (-1)
    (by norm_num)

/-- C5: the world-to-image mapping used by render follows the stated
formulas on both axes, with the Y axis flipped relative to world Z; for
worldSize 4000 the world origin maps to the image center and the world point
(-2000, 2000) maps to the top-left image corner. -/
theorem c5_worldToImage_mapping (worldSize imgW imgH x z : ℚ)
    (h : 0 < worldSize) :
    MapPage.worldToImageX worldSize imgW x =
      ((x + worldSize / 2) / worldSize) * imgW ∧
    MapPage.worldToImageY worldSize imgH z =
      ((worldSize / 2 - z) / worldSize) * imgH ∧
    MapPage.worldToImageX 4000 imgW 0 = imgW / 2 ∧
    MapPage.worldToImageY 4000 imgH 0 = imgH / 2 ∧
    MapPage.worldToImageX 4000 imgW (-2000) = 0 ∧
    MapPage.worldToImageY 4000 imgH 2000 = 0 := by
  refine ⟨rfl, rfl, ?_, ?_, ?_, ?_⟩ <;>
    · simp only [MapPage.worldToImageX, MapPage.worldToImageY]
      norm_num
      try ring

/-- C5 witness: the mapping at worldSize 4000 with a 1600 by 1600 image and
the world point (1, 2). -/
theorem c5_worldToImage_mapping_witness :
    MapPage.worldToImageX 4000 1600 1 = ((1 + 4000 / 2) / 4000) * 1600 ∧
    MapPage.worldToImageY 4000 1600 2 = ((4000 / 2 - 2) / 4000) * 1600 ∧
    MapPage.worldToImageX 4000 1600 0 = 1600 / 2 ∧
    MapPage.worldToImageY 4000 1600 0 = 1600 / 2 ∧
    MapPage.worldToImageX 4000 1600 (-2000) = 0 ∧
    MapPage.worldToImageY 4000 1600 2000 = 0 :=
  c5_worldToImage_mapping 4000 1600 1600 1 2 (by norm_num)

/-- C6 counterexample: the claim says fitToSurface(800, 600, 1600, 1600)
yields scale of about 0.475 = 19/40. The source takes the smaller axis
ratio: min(800/1600, 600/1600) * 0.95 = (3/8) * (19/20) = 57/160 = 0.35625,
which is strictly below 19/40. -/
theorem c6_counterexample :
    (MapPage.fitToCanvas 800 600 1600 1600).zoom = 57 / 160 ∧
    (57 / 160 : ℚ) < 19 / 40 := by
  constructor
  · norm_num [MapPage.fitToCanvas, min_def]
  · norm_num

/-- C6 (amended): fitToCanvas sets the zoom to
min(surfaceW / imageW, surfaceH / imageH) * 0.95 — the formula the spec
states, here written as fitScaleSpec — and centers the scaled image with
pan = (surfaceDim - imageDim * zoom) / 2 on each axis; the concrete call
fitToCanvas(800, 600, 1600, 1600) yields zoom 57/160 = 0.35625, not the
0.475 the scenario in the spec computes from the width ratio alone. -/
theorem c6_amended_fit (surfaceW surfaceH imgW imgH : ℚ) :
    (MapPage.fitToCanvas surfaceW surfaceH imgW imgH).zoom =
      MapPage.fitScaleSpec surfaceW surfaceH imgW imgH ∧
    (MapPage.fitToCanvas surfaceW surfaceH imgW imgH).panX =
      (surfaceW - imgW * (MapPage.fitToCanvas surfaceW surfaceH imgW imgH).zoom) / 2 ∧
    (MapPage.fitToCanvas surfaceW surfaceH imgW imgH).panY =
      (surfaceH - imgH * (MapPage.fitToCanvas surfaceW surfaceH imgW imgH).zoom) / 2 ∧
    (MapPage.fitToCanvas 800 600 1600 1600).zoom = 57 / 160 := by
  refine ⟨rfl, rfl, rfl, ?_⟩
  norm_num [MapPage.fitToCanvas, min_def]

/-- C9 counterexample: the claim includes the fit-to-surface recomputation
among the operations after which the zoom lies in [0.1, 10], for every
surface and image size. fitToCanvas does not clamp: for an 800 by 600
surface and a 10 by 10 image it sets zoom to min(80, 60) * 0.95 = 57, far
above the upper bound 10. -/
theorem c9_counterexample :
    (MapPage.fitToCanvas 800 600 10 10).zoom = 57 ∧ (10 : ℚ) < 57 := by
  constructor
  · norm_num [MapPage.fitToCanvas, min_def]
  · norm_num

/-- C9 (amended): the zoom bound [0.1, 10] is established unconditionally by
every wheel-zoom operation and preserved by the zoom-in and zoom-out
buttons; the fit-to-surface recomputation applies no clamp and can leave the
bound for extreme surface or image sizes. -/
theorem c9_amended_zoom_bounds (v w : MapPage.View) (mouseX mouseY deltaY : ℚ)
    (h1 : 1 / 10 ≤ w.zoom) (h2 : w.zoom ≤ 10) :
    1 / 10 ≤ (MapPage.handleWheel v mouseX mouseY deltaY).zoom ∧
    (MapPage.handleWheel v mouseX mouseY deltaY).zoom ≤ 10 ∧
    1 / 10 ≤ (MapPage.zoomIn w).zoom ∧
    (MapPage.zoomIn w).zoom ≤ 10 ∧
    1 / 10 ≤ (MapPage.zoomOut w).zoom ∧
    (MapPage.zoomOut w).zoom ≤ 10 := by
  refine ⟨?_, ?_, ?_, ?_, ?_, ?_⟩
  · simp only [MapPage.handleWheel, MapPage.applyWheelZoom]
    exact le_max_left _ _
  · simp only [MapPage.handleWheel, MapPage.applyWheelZoom]
    exact max_le (by norm_num) (min_le_left _ _)
  · simp only [MapPage.zoomIn]
    refine le_min (by norm_num) ?_
    nlinarith
  · simp only [MapPage.zoomIn]
    exact min_le_left _ _
  · simp only [MapPage.zoomOut]
    exact le_max_left _ _
  · simp only [MapPage.zoomOut]
    refine max_le (by norm_num) ?_
    rw [div_le_iff₀ (by norm_num : (0 : ℚ) < 12 / 10)]
    linarith

/-- C9 amended witness: the bounds at the default view with zoom 1 after a
downward wheel event at the origin, and around the buttons at zoom 1. -/
theorem c9_amended_zoom_bounds_witness :
    1 / 10 ≤ (MapPage.handleWheel { zoom := 1, panX := 0, panY := 0 } 0 0 1).zoom ∧
    (MapPage.handleWheel { zoom := 1, panX := 0, panY := 0 } 0 0 1).zoom ≤ 10 ∧
    1 / 10 ≤ (MapPage.zoomIn { zoom := 1, panX := 0, panY := 0 }).zoom ∧
    (MapPage.zoomIn { zoom := 1, panX := 0, panY := 0 }).zoom ≤ 10 ∧
    1 / 10 ≤ (MapPage.zoomOut { zoom := 1, panX := 0, panY := 0 }).zoom ∧
    (MapPage.zoomOut { zoom := 1, panX := 0, panY := 0 }).zoom ≤ 10 :=
  c9_amended_zoom_bounds { zoom := 1, panX := 0, panY := 0 }
    { zoom := 1, panX := 0, panY := 0 } 0 0 1 (by norm_num) (by norm_num)
